import Mathlib

/-!
Verification of the chat-bot backend (Express + Postgres).

The development shallowly embeds the backend's persistence layer
(`src/backend/src/db.ts`), the provider wrapper (`generateAIResponse`)
and the HTTP endpoint handlers (`src/backend/src/index.ts`) as pure
state-passing functions over an explicit database value.

Modelling choices, each justified by the source:
* The three tables are lists kept in insertion order; `SERIAL` ids are
  per-table counters starting at 1; `CURRENT_TIMESTAMP` is a natural
  number drawn from a monotone clock in the state (the clock only
  advances, so timestamps are non-decreasing in insertion order, and
  distinct inserts may share a timestamp when the clock is coarse).
* The schema of `initDatabase` declares `REFERENCES sessions(id)` on
  `messages.session_id` (with `ON DELETE CASCADE`) and
  `REFERENCES users(id)` on `sessions.user_id`; accordingly an `INSERT`
  into a child table fails (Postgres foreign-key violation, a thrown
  error in the JS client) when the referenced row is absent, modelled
  with `Except`; and `DELETE FROM sessions` removes the session row and
  its messages in one atomic step.
* `ORDER BY created_at ASC` is modelled as a stable sort (by
  `created_at`) of the insertion-ordered table.
* The external provider and store-level failure of the title `UPDATE`
  are the two effects the handlers observe but do not compute; they are
  supplied by an `Env` value: a function from the prompt to the
  provider's outcome, and a flag injecting a thrown error into
  `updateSessionTitle` (e.g. a lost connection).  The handler's
  `try/catch` turns any thrown error into the `success:false` envelope.
-/

namespace ChatBot

/-- Row of the `users` table (`User` in db.ts). -/
structure User where
  id : Nat
  username : String
  created_at : Nat
deriving DecidableEq, Repr

/-- Row of the `sessions` table (`Session` in db.ts). -/
structure Session where
  id : Nat
  user_id : Nat
  title : String
  created_at : Nat
deriving DecidableEq, Repr

/-- Row of the `messages` table (`Message` in db.ts). -/
structure Message where
  id : Nat
  session_id : Nat
  role : String
  content : String
  created_at : Nat
deriving DecidableEq, Repr

/-- JS `String.prototype.trim()`: strips leading and trailing
whitespace. -/
def jsTrim (s : String) : String :=
  ⟨((s.data.dropWhile Char.isWhitespace).reverse.dropWhile Char.isWhitespace).reverse⟩

/-- JS `String.prototype.toLowerCase()`. -/
def jsToLower (s : String) : String :=
  ⟨s.data.map Char.toLower⟩

/-- JS `String.prototype.substring(0, n)`: the first `n` characters. -/
def jsSubstring (s : String) (n : Nat) : String :=
  ⟨s.data.take n⟩

/-- JS `String.prototype.length`. -/
def jsLength (s : String) : Nat :=
  s.data.length

/-- The persisted state: the three tables in insertion order, the three
`SERIAL` counters, and the `CURRENT_TIMESTAMP` clock. -/
structure DB where
  users : List User
  sessions : List Session
  messages : List Message
  nextUserId : Nat
  nextSessionId : Nat
  nextMessageId : Nat
  clock : Nat
deriving DecidableEq, Repr

/-- The state right after `initDatabase` has created the (empty) tables;
`SERIAL` counters start at 1. -/
def initDatabase : DB :=
  { users := [], sessions := [], messages := [],
    nextUserId := 1, nextSessionId := 1, nextMessageId := 1, clock := 0 }

/-- Postgres coercion of a value into a `character varying (n)` column on
`INSERT`: a value longer than `n` characters raises `value too long`,
unless every character past position `n` is a space, in which case the
value is silently truncated to `n` characters; a value of at most `n`
characters is stored as given. -/
def varcharValue (n : Nat) (s : String) : Option String :=
  if jsLength s ≤ n then some s
  else if (s.data.drop n).all (fun c => c == ' ') then some ⟨s.data.take n⟩
  else none

/-- `getOrCreateUser` (db.ts): `SELECT ... WHERE username = $1`, and if no
row comes back, `INSERT INTO users (username) ... RETURNING ...`.  The
`username` column is `VARCHAR(50)`; that length bound is not modelled
here: the only caller stores `username.trim().toLowerCase()`, and the
bound changes no stated property — repeated calls behave identically
with or without it. -/
def getOrCreateUser (db : DB) (username : String) : User × DB :=
  match db.users.find? (fun u => u.username == username) with
  | some u => (u, db)
  | none =>
      let u : User := ⟨db.nextUserId, username, db.clock⟩
      (u, { db with users := db.users ++ [u], nextUserId := db.nextUserId + 1 })

/-- `createSession` (db.ts): `INSERT INTO sessions (user_id, title) ...
RETURNING ...`.  The `title` column is `VARCHAR(100)`, so the inserted
value goes through `varcharValue 100` (value-too-long, or truncation of
an all-space excess); the `user_id` column references `users(id)`, so
the insert fails with a foreign-key violation when no such user
exists. -/
def createSession (db : DB) (userId : Nat) (title : String) :
    Except String (Session × DB) :=
  match varcharValue 100 title with
  | none => .error "value too long for type character varying(100)"
  | some t =>
      if db.users.any (fun u => u.id == userId) then
        let s : Session := ⟨db.nextSessionId, userId, t, db.clock⟩
        .ok (s, { db with sessions := db.sessions ++ [s],
                          nextSessionId := db.nextSessionId + 1 })
      else
        .error "foreign key violation"

/-- Insertion step of the deterministic refinement of `ORDER BY
created_at`: the inserted row goes in front of the first strictly later
row, after rows with an equal timestamp.  This stability is one
admissible choice, not a guarantee of the query — see
`selectMessagesSpec` for the contract the query actually gives. -/
def insertByTime (m : Message) : List Message → List Message
  | [] => [m]
  | x :: xs =>
      if m.created_at ≤ x.created_at then m :: x :: xs
      else x :: insertByTime m xs

/-- Deterministic refinement of `ORDER BY created_at ASC`: a sort by
`created_at` that happens to keep the table's insertion order on equal
timestamps.  The query itself has no secondary sort key and Postgres
leaves the order of rows with equal `created_at` unspecified, so this is
one admissible result among those described by `selectMessagesSpec`
(see `getSessionMessages_satisfies_spec`), used to keep the handler
model executable. -/
def orderByTimeAsc : List Message → List Message
  | [] => []
  | x :: xs => insertByTime x (orderByTimeAsc xs)

/-- `getSessionMessages` (db.ts): `SELECT ... FROM messages WHERE
session_id = $1 ORDER BY created_at ASC`, as the deterministic
refinement `orderByTimeAsc`. -/
def getSessionMessages (db : DB) (sessionId : Nat) : List Message :=
  orderByTimeAsc (db.messages.filter (fun m => m.session_id == sessionId))

/-- Contract of the query behind `getSessionMessages`:
`SELECT ... WHERE session_id = $1 ORDER BY created_at ASC` returns some
permutation of the session's rows that is non-decreasing in
`created_at`.  The query has no secondary sort key and Postgres does not
specify the relative order of rows with equal `created_at` (its sort is
not stable), so every such permutation is an admissible result. -/
def selectMessagesSpec (db : DB) (sessionId : Nat) (l : List Message) : Prop :=
  l.Perm (db.messages.filter (fun m => m.session_id == sessionId)) ∧
  l.Pairwise (fun a b => a.created_at ≤ b.created_at)

/-- Insertion step of the deterministic refinement of `ORDER BY
created_at DESC`; as with `insertByTime`, the tie placement is one
admissible choice of the query, not a guarantee (only emptiness of the
result is used below). -/
def insertByTimeDesc (s : Session) : List Session → List Session
  | [] => [s]
  | x :: xs =>
      if x.created_at ≤ s.created_at then s :: x :: xs
      else x :: insertByTimeDesc s xs

/-- Deterministic refinement of `ORDER BY created_at DESC` on sessions,
newest first. -/
def orderByTimeDesc : List Session → List Session
  | [] => []
  | x :: xs => insertByTimeDesc x (orderByTimeDesc xs)

/-- `getUserSessions` (db.ts): `SELECT ... FROM sessions WHERE user_id =
$1 ORDER BY created_at DESC`. -/
def getUserSessions (db : DB) (userId : Nat) : List Session :=
  orderByTimeDesc (db.sessions.filter (fun s => s.user_id == userId))

/-- `updateSessionTitle` (db.ts): `UPDATE sessions SET title = $1 WHERE
id = $2`; updates every matching row, touches nothing else.  The
`VARCHAR(100)` bound on `title` is not modelled here: the only writer
passes `message.substring(0, 50)`, a value of at most 50 characters. -/
def updateSessionTitle (db : DB) (sessionId : Nat) (title : String) : DB :=
  { db with sessions :=
      db.sessions.map (fun s => if s.id == sessionId then { s with title := title } else s) }

/-- `deleteSession` (db.ts): `DELETE FROM sessions WHERE id = $1`.  The
schema's `ON DELETE CASCADE` on `messages.session_id` removes the
session's messages in the same atomic statement. -/
def deleteSession (db : DB) (sessionId : Nat) : DB :=
  { db with sessions := db.sessions.filter (fun s => ! (s.id == sessionId)),
            messages := db.messages.filter (fun m => ! (m.session_id == sessionId)) }

/-- `saveMessage` (db.ts): `INSERT INTO messages (session_id, role,
content) ... RETURNING ...`.  The `session_id` column references
`sessions(id)`, so the insert throws a foreign-key violation when the
session does not exist. -/
def saveMessage (db : DB) (sessionId : Nat) (role content : String) :
    Except String (Message × DB) :=
  if db.sessions.any (fun s => s.id == sessionId) then
    let m : Message := ⟨db.nextMessageId, sessionId, role, content, db.clock⟩
    .ok (m, { db with messages := db.messages ++ [m],
                      nextMessageId := db.nextMessageId + 1 })
  else
    .error "foreign key violation"

/-- `clearSessionMessages` (db.ts): `DELETE FROM messages WHERE
session_id = $1`. -/
def clearSessionMessages (db : DB) (sessionId : Nat) : DB :=
  { db with messages := db.messages.filter (fun m => ! (m.session_id == sessionId)) }

/-! ### The provider wrapper (ai module) -/

/-- One entry of the prompt array built by `generateAIResponse`. -/
structure ChatMsg where
  role : String
  content : String
deriving DecidableEq, Repr

/-- The fixed system message of `generateAIResponse`. -/
def systemMessage : String :=
  "You are a helpful, friendly AI assistant. Keep responses concise."

/-- The prompt array `generateAIResponse` sends: the system message,
then the given history rows with their roles, then the new user
message last. -/
def buildMessages (userMessage : String) (history : List Message) : List ChatMsg :=
  ⟨"system", systemMessage⟩ ::
    (history.map (fun m => ⟨m.role, m.content⟩) ++ [⟨"user", userMessage⟩])

/-- The effects the handlers observe but do not compute: the external
provider's outcome on a given prompt (`generateText`; `.error` is any of
its failure modes), and whether the store-level `UPDATE` of
`updateSessionTitle` throws (e.g. connection loss). -/
structure Env where
  provider : List ChatMsg → Except String String
  renameFails : Bool

/-- `generateAIResponse` (ai module): builds the prompt with
`buildMessages` and calls the provider on it. -/
def generateAIResponse (env : Env) (userMessage : String) (history : List Message) :
    Except String String :=
  env.provider (buildMessages userMessage history)

/-! ### Endpoint handlers (index.ts) -/

/-- `POST /api/auth/login`: rejects a username whose trim is shorter than
2 characters, otherwise resolves `username.trim().toLowerCase()` via
`getOrCreateUser`. -/
def login (db : DB) (username : String) : Except String User × DB :=
  if jsLength (jsTrim username) < 2 then
    (.error "Username must be at least 2 characters", db)
  else
    let r := getOrCreateUser db (jsToLower (jsTrim username))
    (.ok r.1, r.2)

/-- `POST /api/sessions`: `createSession(userId, title || 'New Chat')` —
an absent or empty-string title falls back to `"New Chat"`; a thrown
error (foreign-key violation) becomes the failure envelope with the
state unchanged. -/
def createSessionEndpoint (db : DB) (userId : Nat) (title : Option String) :
    Except String Session × DB :=
  let t := match title with
    | none => "New Chat"
    | some s => if s == "" then "New Chat" else s
  match createSession db userId t with
  | .ok (s, db') => (.ok s, db')
  | .error _ => (.error "Failed to create session", db)

instance {ε α : Type} [DecidableEq ε] [DecidableEq α] : DecidableEq (Except ε α) :=
  fun a b =>
    match a, b with
    | .error e, .error f => decidable_of_iff (e = f) (by simp)
    | .ok x, .ok y => decidable_of_iff (x = y) (by simp)
    | .error _, .ok _ => .isFalse (fun h => nomatch h)
    | .ok _, .error _ => .isFalse (fun h => nomatch h)

/-- Outcome of one `POST /api/sessions/:sessionId/chat` request: the JSON
envelope (`.ok` carries the persisted assistant row of the `success:true`
response, `.error` the `success:false` message), and the prompt sent to
the provider, if the provider was invoked at all. -/
structure TurnResult where
  response : Except String Message
  providerCall : Option (List ChatMsg)
deriving DecidableEq, Repr

/-- `POST /api/sessions/:sessionId/chat` (index.ts): reject a message
that trims to empty; append it as a `user` row; reload the history;
call `generateAIResponse` on the history minus its last row
(`history.slice(0, -1)`); append the reply as an `assistant` row; if the
reloaded history had length ≤ 1, rename the session to the first 50
characters of the raw message.  Every `await` sits inside one
`try/catch`, so a throw at any step — including the title `UPDATE` —
returns the failure envelope with no further steps run. -/
def chatTurn (env : Env) (db : DB) (sessionId : Nat) (message : String) :
    TurnResult × DB :=
  if jsTrim message == "" then
    (⟨.error "Message cannot be empty", none⟩, db)
  else
    match saveMessage db sessionId "user" message with
    | .error _ => (⟨.error "Failed to process message", none⟩, db)
    | .ok (_, db1) =>
        let history := getSessionMessages db1 sessionId
        let prompt := buildMessages message history.dropLast
        match generateAIResponse env message history.dropLast with
        | .error _ => (⟨.error "Failed to process message", some prompt⟩, db1)
        | .ok text =>
            match saveMessage db1 sessionId "assistant" text with
            | .error _ => (⟨.error "Failed to process message", some prompt⟩, db1)
            | .ok (saved, db2) =>
                if history.length ≤ 1 then
                  if env.renameFails then
                    (⟨.error "Failed to process message", some prompt⟩, db2)
                  else
                    (⟨.ok saved, some prompt⟩,
                     updateSessionTitle db2 sessionId (jsSubstring message 50))
                else
                  (⟨.ok saved, some prompt⟩, db2)

/-- `DELETE /api/sessions/:sessionId` (index.ts). -/
def deleteSessionEndpoint (db : DB) (sessionId : Nat) : Except String Unit × DB :=
  (.ok (), deleteSession db sessionId)

/-- `DELETE /api/sessions/:sessionId/messages` (index.ts). -/
def clearMessagesEndpoint (db : DB) (sessionId : Nat) : Except String Unit × DB :=
  (.ok (), clearSessionMessages db sessionId)

/-! ### Traces of requests -/

/-- One inbound event the server can process: a clock advance (time
passing between requests; `n = 0` models requests landing within one
timestamp granule) or one of the endpoint handlers.  A chat request
carries the provider behaviour and the rename-failure flag in force
while it runs. -/
inductive Op where
  | tick (n : Nat)
  | loginOp (username : String)
  | createOp (userId : Nat) (title : Option String)
  | chatOp (provider : List ChatMsg → Except String String) (renameFails : Bool)
      (sessionId : Nat) (message : String)
  | renameOp (sessionId : Nat) (title : String)
  | deleteOp (sessionId : Nat)
  | clearOp (sessionId : Nat)
  | saveOp (sessionId : Nat) (role content : String)

/-- State effect of one `saveMessage` call as the server observes it: a
thrown foreign-key violation is caught and leaves the state unchanged. -/
def saveMessageState (db : DB) (sessionId : Nat) (role content : String) : DB :=
  match saveMessage db sessionId role content with
  | .ok (_, db') => db'
  | .error _ => db

/-- State effect of one inbound event. -/
def applyOp (db : DB) : Op → DB
  | .tick n => { db with clock := db.clock + n }
  | .loginOp u => (login db u).2
  | .createOp uid t => (createSessionEndpoint db uid t).2
  | .chatOp p rf sid m => (chatTurn ⟨p, rf⟩ db sid m).2
  | .renameOp sid t => updateSessionTitle db sid t
  | .deleteOp sid => deleteSession db sid
  | .clearOp sid => clearSessionMessages db sid
  | .saveOp sid r c => saveMessageState db sid r c

/-- State after a sequence of inbound events. -/
def applyOps (db : DB) : List Op → DB
  | [] => db
  | op :: rest => applyOps (applyOp db op) rest

/-! ### Invariants of reachable states -/

/-- Invariants every state reachable from `initDatabase` satisfies:
tables are in insertion order (ids strictly increasing), timestamps are
non-decreasing along insertion order and bounded by the clock, `SERIAL`
counters dominate assigned ids, and the schema's foreign keys hold. -/
structure WfDB (db : DB) : Prop where
  msgSorted : db.messages.Pairwise (fun a b => a.id < b.id ∧ a.created_at ≤ b.created_at)
  msgClock : ∀ m ∈ db.messages, m.created_at ≤ db.clock
  msgNext : ∀ m ∈ db.messages, m.id < db.nextMessageId
  sessSorted : db.sessions.Pairwise (fun a b => a.id < b.id)
  sessNext : ∀ s ∈ db.sessions, s.id < db.nextSessionId
  msgFK : ∀ m ∈ db.messages, ∃ s ∈ db.sessions, s.id = m.session_id
  sessFK : ∀ s ∈ db.sessions, ∃ u ∈ db.users, u.id = s.user_id

/-- `SELECT`-style lookup of a session row by id. -/
def findSession (db : DB) (sessionId : Nat) : Option Session :=
  db.sessions.find? (fun s => s.id == sessionId)

/-- Number of messages a session holds in the given state. -/
def sessionMessageCount (db : DB) (sessionId : Nat) : Nat :=
  (db.messages.filter (fun m => m.session_id == sessionId)).length

/-! ### Concrete fixtures for witnesses and counterexamples -/

/-- Environment whose provider always answers and whose title `UPDATE`
succeeds. -/
def envOk : Env := ⟨fun _ => .ok "Hi there!", false⟩

/-- Environment whose provider call fails (network error, timeout,
provider-side error or unusable completion). -/
def envProviderDown : Env := ⟨fun _ => .error "provider unavailable", false⟩

/-- Environment whose provider answers but whose title `UPDATE` throws a
store-level error. -/
def envRenameFail : Env := ⟨fun _ => .ok "Hi there!", true⟩

/-- A state holding one user `alice` and one fresh session (id 1, title
`"New Chat"`, no messages). -/
def dbAlice : DB :=
  { users := [⟨1, "alice", 0⟩], sessions := [⟨1, 1, "New Chat", 0⟩],
    messages := [], nextUserId := 2, nextSessionId := 2, nextMessageId := 1,
    clock := 0 }

/-- `dbAlice` after one completed first turn: the session is titled
`"Hello"` and holds the user/assistant pair. -/
def dbAliceTurn1 : DB :=
  { users := [⟨1, "alice", 0⟩], sessions := [⟨1, 1, "Hello", 0⟩],
    messages := [⟨1, 1, "user", "Hello", 0⟩, ⟨2, 1, "assistant", "Hi there!", 0⟩],
    nextUserId := 2, nextSessionId := 2, nextMessageId := 3, clock := 0 }

/-- A 101-character title, exceeding the `sessions.title VARCHAR(100)`
bound with a non-space excess. -/
def longTitle : String :=
  ⟨List.replicate 101 'a'⟩

/-- A trace whose two appends to session 1 land within one timestamp
granule, so the two rows carry equal `created_at`. -/
def traceTiedAppends : List Op :=
  [.loginOp "alice", .createOp 1 none, .saveOp 1 "user" "a", .saveOp 1 "user" "b"]

/-- A trace whose two appends to session 1 are separated by a clock
advance, so the two rows carry distinct `created_at`. -/
def traceTwoMessages : List Op :=
  [.loginOp "alice", .createOp 1 none, .saveOp 1 "user" "a", .tick 1,
   .saveOp 1 "user" "b"]

/-! ### Symbolic states of a turn, named after the turn state machine -/

/-- The `user` row a turn appends in state `UserPersisted`. -/
def userRow (db : DB) (sessionId : Nat) (message : String) : Message :=
  ⟨db.nextMessageId, sessionId, "user", message, db.clock⟩

/-- The state after the turn appended the `user` row. -/
def dbUserPersisted (db : DB) (sessionId : Nat) (message : String) : DB :=
  { db with messages := db.messages ++ [userRow db sessionId message],
            nextMessageId := db.nextMessageId + 1 }

/-- The prompt a turn on `db` sends to the provider. -/
def turnPrompt (db : DB) (sessionId : Nat) (message : String) : List ChatMsg :=
  buildMessages message (getSessionMessages db sessionId)

/-- The `assistant` row a turn appends in state `AssistantPersisted`. -/
def assistantRow (db : DB) (sessionId : Nat) (message text : String) : Message :=
  ⟨db.nextMessageId + 1, sessionId, "assistant", text, db.clock⟩

/-- The state after the turn appended both rows. -/
def dbAssistantPersisted (db : DB) (sessionId : Nat) (message text : String) : DB :=
  { db with messages := db.messages ++ [userRow db sessionId message,
                                        assistantRow db sessionId message text],
            nextMessageId := db.nextMessageId + 2 }

/-! ## Lemmas about the stable sort -/

theorem insertByTime_of_le {m x : Message} (xs : List Message)
    (h : m.created_at ≤ x.created_at) : insertByTime m (x :: xs) = m :: x :: xs := by
  simp [insertByTime, h]

theorem orderByTimeAsc_eq_self : ∀ {l : List Message},
    l.Pairwise (fun a b => a.created_at ≤ b.created_at) → orderByTimeAsc l = l
  | [], _ => rfl
  | x :: xs, h => by
      rcases List.pairwise_cons.mp h with ⟨hx, hxs⟩
      rw [orderByTimeAsc, orderByTimeAsc_eq_self hxs]
      cases xs with
      | nil => rfl
      | cons y ys => exact insertByTime_of_le ys (hx y (List.mem_cons_self y ys))

theorem msgTimesSorted {db : DB} (h : WfDB db) :
    db.messages.Pairwise (fun a b => a.created_at ≤ b.created_at) :=
  h.msgSorted.imp (fun hab => hab.2)

theorem getSessionMessages_eq_filter {db : DB} (h : WfDB db) (sid : Nat) :
    getSessionMessages db sid = db.messages.filter (fun m => m.session_id == sid) :=
  orderByTimeAsc_eq_self ((msgTimesSorted h).filter _)

/-! ## Lemmas about `saveMessage` -/

theorem saveMessage_of_exists {db : DB} {sid : Nat} (r c : String)
    (hs : db.sessions.any (fun s => s.id == sid) = true) :
    saveMessage db sid r c =
      .ok (⟨db.nextMessageId, sid, r, c, db.clock⟩,
        { db with messages := db.messages ++ [⟨db.nextMessageId, sid, r, c, db.clock⟩],
                  nextMessageId := db.nextMessageId + 1 }) := by
  simp [saveMessage, hs]

theorem saveMessage_of_not_exists {db : DB} {sid : Nat} (r c : String)
    (hs : ¬ db.sessions.any (fun s => s.id == sid) = true) :
    saveMessage db sid r c = .error "foreign key violation" := by
  simp [saveMessage, hs]

theorem getSessionMessages_append {db : DB} (h : WfDB db) {sid k : Nat} {m : Message}
    (hm : (m.session_id == sid) = true)
    (hca : ∀ x ∈ db.messages, x.created_at ≤ m.created_at) :
    getSessionMessages { db with messages := db.messages ++ [m], nextMessageId := k } sid
      = getSessionMessages db sid ++ [m] := by
  have hfil : (db.messages ++ [m]).filter (fun x => x.session_id == sid)
      = db.messages.filter (fun x => x.session_id == sid) ++ [m] := by
    rw [List.filter_append]
    simp [hm]
  have hpw : (db.messages.filter (fun x => x.session_id == sid) ++ [m]).Pairwise
      (fun a b => a.created_at ≤ b.created_at) := by
    rw [List.pairwise_append]
    refine ⟨(msgTimesSorted h).filter _, List.pairwise_singleton _ _, ?_⟩
    intro a ha b hb
    rw [List.mem_singleton] at hb
    subst hb
    exact hca a (List.mem_filter.mp ha).1
  show orderByTimeAsc ((db.messages ++ [m]).filter (fun x => x.session_id == sid))
      = getSessionMessages db sid ++ [m]
  rw [hfil, orderByTimeAsc_eq_self hpw, getSessionMessages_eq_filter h]

theorem getSessionMessages_dbUserPersisted {db : DB} (hwf : WfDB db) (sid : Nat)
    (msg : String) :
    getSessionMessages (dbUserPersisted db sid msg) sid
      = getSessionMessages db sid ++ [userRow db sid msg] := by
  show getSessionMessages
      { db with messages := db.messages ++ [userRow db sid msg],
                nextMessageId := db.nextMessageId + 1 } sid = _
  exact getSessionMessages_append hwf (by simp [userRow])
    (fun x hx => hwf.msgClock x hx)

/-! ## Preservation of the invariants -/

theorem wf_insertMessage {db : DB} (h : WfDB db) {sid : Nat} (r c : String)
    (hs : ∃ s ∈ db.sessions, s.id = sid) :
    WfDB { db with messages := db.messages ++ [⟨db.nextMessageId, sid, r, c, db.clock⟩],
                   nextMessageId := db.nextMessageId + 1 } := by
  constructor
  · rw [List.pairwise_append]
    refine ⟨h.msgSorted, List.pairwise_singleton _ _, ?_⟩
    intro a ha b hb
    rw [List.mem_singleton] at hb
    subst hb
    exact ⟨h.msgNext a ha, h.msgClock a ha⟩
  · intro m hm
    rcases List.mem_append.mp hm with hm | hm
    · exact h.msgClock m hm
    · rw [List.mem_singleton] at hm
      subst hm
      exact Nat.le_refl _
  · intro m hm
    rcases List.mem_append.mp hm with hm | hm
    · exact Nat.lt_trans (h.msgNext m hm) (Nat.lt_succ_self _)
    · rw [List.mem_singleton] at hm
      subst hm
      exact Nat.lt_succ_self _
  · exact h.sessSorted
  · exact h.sessNext
  · intro m hm
    rcases List.mem_append.mp hm with hm | hm
    · exact h.msgFK m hm
    · rw [List.mem_singleton] at hm
      subst hm
      exact hs
  · exact h.sessFK

theorem exists_session_of_any {db : DB} {sid : Nat}
    (hs : db.sessions.any (fun s => s.id == sid) = true) :
    ∃ s ∈ db.sessions, s.id = sid := by
  rcases List.any_eq_true.mp hs with ⟨s, hsmem, hseq⟩
  exact ⟨s, hsmem, eq_of_beq hseq⟩

theorem wf_saveMessageState {db : DB} (h : WfDB db) (sid : Nat) (r c : String) :
    WfDB (saveMessageState db sid r c) := by
  by_cases hs : db.sessions.any (fun s => s.id == sid) = true
  · rw [saveMessageState, saveMessage_of_exists r c hs]
    exact wf_insertMessage h r c (exists_session_of_any hs)
  · rw [saveMessageState, saveMessage_of_not_exists r c hs]
    exact h

/-! ## Structural equations for one chat turn -/

theorem chatTurn_eq_validation {env : Env} {db : DB} {sid : Nat} {msg : String}
    (hmsg : (jsTrim msg == "") = true) :
    chatTurn env db sid msg = (⟨.error "Message cannot be empty", none⟩, db) := by
  simp [chatTurn, hmsg]

theorem chatTurn_eq_fk {env : Env} {db : DB} {sid : Nat} {msg : String}
    (hmsg : (jsTrim msg == "") = false)
    (hs : ¬ db.sessions.any (fun s => s.id == sid) = true) :
    chatTurn env db sid msg = (⟨.error "Failed to process message", none⟩, db) := by
  simp [chatTurn, hmsg, saveMessage_of_not_exists "user" msg hs]

theorem chatTurn_eq_provider_error {env : Env} {db : DB} {sid : Nat} {msg e : String}
    (hwf : WfDB db)
    (hmsg : (jsTrim msg == "") = false)
    (hs : db.sessions.any (fun s => s.id == sid) = true)
    (he : env.provider (turnPrompt db sid msg) = .error e) :
    chatTurn env db sid msg =
      (⟨.error "Failed to process message", some (turnPrompt db sid msg)⟩,
       dbUserPersisted db sid msg) := by
  have hd : dbUserPersisted db sid msg =
      { db with messages := db.messages ++ [⟨db.nextMessageId, sid, "user", msg, db.clock⟩],
                nextMessageId := db.nextMessageId + 1 } := rfl
  have hhist : getSessionMessages (dbUserPersisted db sid msg) sid
      = getSessionMessages db sid ++ [userRow db sid msg] :=
    getSessionMessages_dbUserPersisted hwf sid msg
  rw [hd] at hhist
  have hprompt : turnPrompt db sid msg =
      buildMessages msg ((getSessionMessages db sid ++ [userRow db sid msg]).dropLast) := by
    rw [List.dropLast_concat, turnPrompt]
  simp only [chatTurn, hmsg, Bool.false_eq_true, if_false,
    saveMessage_of_exists "user" msg hs, hhist, generateAIResponse, ← hprompt, he]
  rw [hd]

theorem chatTurn_eq_provider_ok {env : Env} {db : DB} {sid : Nat} {msg text : String}
    (hwf : WfDB db)
    (hmsg : (jsTrim msg == "") = false)
    (hs : db.sessions.any (fun s => s.id == sid) = true)
    (ht : env.provider (turnPrompt db sid msg) = .ok text) :
    chatTurn env db sid msg =
      if getSessionMessages db sid = [] then
        if env.renameFails then
          (⟨.error "Failed to process message", some (turnPrompt db sid msg)⟩,
           dbAssistantPersisted db sid msg text)
        else
          (⟨.ok (assistantRow db sid msg text), some (turnPrompt db sid msg)⟩,
           updateSessionTitle (dbAssistantPersisted db sid msg text) sid
             (jsSubstring msg 50))
      else
        (⟨.ok (assistantRow db sid msg text), some (turnPrompt db sid msg)⟩,
         dbAssistantPersisted db sid msg text) := by
  have hd : dbUserPersisted db sid msg =
      { db with messages := db.messages ++ [⟨db.nextMessageId, sid, "user", msg, db.clock⟩],
                nextMessageId := db.nextMessageId + 1 } := rfl
  have hhist : getSessionMessages (dbUserPersisted db sid msg) sid
      = getSessionMessages db sid ++ [userRow db sid msg] :=
    getSessionMessages_dbUserPersisted hwf sid msg
  rw [hd] at hhist
  have hprompt : turnPrompt db sid msg =
      buildMessages msg ((getSessionMessages db sid ++ [userRow db sid msg]).dropLast) := by
    rw [List.dropLast_concat, turnPrompt]
  have hs1 : ((dbUserPersisted db sid msg).sessions.any (fun s => s.id == sid)) = true := hs
  rw [hd] at hs1
  have hsave2 := saveMessage_of_exists "assistant" text hs1
  have hcond : (((getSessionMessages db sid ++ [userRow db sid msg]).length ≤ 1))
      ↔ (getSessionMessages db sid = []) := by
    simp [List.length_append, Nat.succ_le_succ_iff, Nat.le_zero, List.length_eq_zero]
  have hd2 : dbAssistantPersisted db sid msg text =
      { db with
          messages := (db.messages ++ [⟨db.nextMessageId, sid, "user", msg, db.clock⟩])
            ++ [⟨db.nextMessageId + 1, sid, "assistant", text, db.clock⟩],
          nextMessageId := db.nextMessageId + 1 + 1 } := by
    simp [dbAssistantPersisted, userRow, assistantRow]
  have ha : assistantRow db sid msg text =
      ⟨db.nextMessageId + 1, sid, "assistant", text, db.clock⟩ := rfl
  simp only [chatTurn, hmsg, Bool.false_eq_true, if_false,
    saveMessage_of_exists "user" msg hs, hhist, generateAIResponse, ← hprompt, ht,
    hsave2, hcond]
  rw [hd2, ha]

/-! ## Lemmas about session lookup and retitling -/

theorem find?_map_title (sid : Nat) (t : String) : ∀ (l : List Session),
    ((l.map (fun s => if s.id == sid then { s with title := t } else s)).find?
        (fun s => s.id == sid))
      = (l.find? (fun s => s.id == sid)).map (fun s => { s with title := t })
  | [] => rfl
  | x :: xs => by
      by_cases hx : (x.id == sid) = true
      · simp [List.find?_cons, hx, eq_of_beq hx]
      · simp only [List.map_cons, List.find?_cons]
        rw [if_neg hx]
        simp only [Bool.not_eq_true] at hx
        rw [hx]
        exact find?_map_title sid t xs

theorem findSession_updateSessionTitle (db : DB) (sid : Nat) (t : String) :
    findSession (updateSessionTitle db sid t) sid
      = (findSession db sid).map (fun s => { s with title := t }) :=
  find?_map_title sid t db.sessions

theorem findSession_isSome_of_any {db : DB} {sid : Nat}
    (hs : db.sessions.any (fun s => s.id == sid) = true) :
    (findSession db sid).isSome = true := by
  rw [findSession, List.find?_isSome]
  exact List.any_eq_true.mp hs

theorem sessionMessageCount_eq_zero_iff {db : DB} (hwf : WfDB db) (sid : Nat) :
    sessionMessageCount db sid = 0 ↔ getSessionMessages db sid = [] := by
  rw [sessionMessageCount, List.length_eq_zero, getSessionMessages_eq_filter hwf]

/-! ## Invariant preservation along traces -/

theorem exists_user_of_any {db : DB} {uid : Nat}
    (hu : db.users.any (fun u => u.id == uid) = true) :
    ∃ u ∈ db.users, u.id = uid := by
  rcases List.any_eq_true.mp hu with ⟨u, hum, hueq⟩
  exact ⟨u, hum, eq_of_beq hueq⟩

theorem wf_usersAppend {db : DB} (h : WfDB db) (u : User) (k : Nat) :
    WfDB { db with users := db.users ++ [u], nextUserId := k } := by
  constructor
  · exact h.msgSorted
  · exact h.msgClock
  · exact h.msgNext
  · exact h.sessSorted
  · exact h.sessNext
  · exact h.msgFK
  · intro s hsm
    rcases h.sessFK s hsm with ⟨u', hum, he⟩
    exact ⟨u', List.mem_append_left _ hum, he⟩

theorem wf_login {db : DB} (h : WfDB db) (username : String) :
    WfDB (login db username).2 := by
  unfold login
  by_cases hv : jsLength (jsTrim username) < 2
  · rw [if_pos hv]
    exact h
  · rw [if_neg hv]
    unfold getOrCreateUser
    rcases hf : db.users.find? (fun u => u.username == jsToLower (jsTrim username))
        with _ | u
    · simp only [hf]
      exact wf_usersAppend h _ _
    · simp only [hf]
      exact h

theorem wf_sessionsAppend {db : DB} (h : WfDB db) {uid : Nat} (t : String)
    (hu : ∃ u ∈ db.users, u.id = uid) :
    WfDB { db with sessions := db.sessions ++ [⟨db.nextSessionId, uid, t, db.clock⟩],
                   nextSessionId := db.nextSessionId + 1 } := by
  constructor
  · exact h.msgSorted
  · exact h.msgClock
  · exact h.msgNext
  · rw [List.pairwise_append]
    refine ⟨h.sessSorted, List.pairwise_singleton _ _, ?_⟩
    intro a ha b hb
    rw [List.mem_singleton] at hb
    subst hb
    exact h.sessNext a ha
  · intro s hsm
    rcases List.mem_append.mp hsm with hsm | hsm
    · exact Nat.lt_trans (h.sessNext s hsm) (Nat.lt_succ_self _)
    · rw [List.mem_singleton] at hsm
      subst hsm
      exact Nat.lt_succ_self _
  · intro m hm
    rcases h.msgFK m hm with ⟨s, hsm, he⟩
    exact ⟨s, List.mem_append_left _ hsm, he⟩
  · intro s hsm
    rcases List.mem_append.mp hsm with hsm | hsm
    · exact h.sessFK s hsm
    · rw [List.mem_singleton] at hsm
      subst hsm
      exact hu

theorem wf_createSessionEndpoint {db : DB} (h : WfDB db) (uid : Nat) (t : Option String) :
    WfDB (createSessionEndpoint db uid t).2 := by
  show WfDB (match createSession db uid
      (match t with | none => "New Chat" | some s => if s == "" then "New Chat" else s) with
    | .ok (s, db') => ((.ok s : Except String Session), db')
    | .error _ => ((.error "Failed to create session" : Except String Session), db)).2
  unfold createSession
  rcases hv : varcharValue 100 (match t with
      | none => "New Chat" | some s => if s == "" then "New Chat" else s) with _ | v
  · simp only [hv]
    exact h
  · simp only [hv]
    by_cases hu : db.users.any (fun u => u.id == uid) = true
    · simp only [hu, if_true]
      exact wf_sessionsAppend h _ (exists_user_of_any hu)
    · simp only [Bool.eq_false_iff.mpr hu, Bool.false_eq_true, if_false]
      exact h

theorem wf_updateSessionTitle {db : DB} (h : WfDB db) (sid : Nat) (t : String) :
    WfDB (updateSessionTitle db sid t) := by
  have hid : ∀ s : Session, (if s.id == sid then { s with title := t } else s).id = s.id := by
    intro s
    by_cases hx : (s.id == sid) = true <;> simp [hx]
  have huid : ∀ s : Session,
      (if s.id == sid then { s with title := t } else s).user_id = s.user_id := by
    intro s
    by_cases hx : (s.id == sid) = true <;> simp [hx]
  constructor
  · exact h.msgSorted
  · exact h.msgClock
  · exact h.msgNext
  · rw [updateSessionTitle]
    refine List.pairwise_map.mpr (h.sessSorted.imp ?_)
    intro a b hab
    rw [hid a, hid b]
    exact hab
  · intro s hsm
    rcases List.mem_map.mp hsm with ⟨s0, hs0, rfl⟩
    rw [hid s0]
    exact h.sessNext s0 hs0
  · intro m hm
    rcases h.msgFK m hm with ⟨s, hsm, he⟩
    refine ⟨if s.id == sid then { s with title := t } else s,
      List.mem_map_of_mem _ hsm, ?_⟩
    rw [hid s]
    exact he
  · intro s hsm
    rcases List.mem_map.mp hsm with ⟨s0, hs0, rfl⟩
    rw [huid s0]
    exact h.sessFK s0 hs0

theorem wf_deleteSession {db : DB} (h : WfDB db) (sid : Nat) :
    WfDB (deleteSession db sid) := by
  constructor
  · exact h.msgSorted.filter _
  · intro m hm
    exact h.msgClock m (List.mem_filter.mp hm).1
  · intro m hm
    exact h.msgNext m (List.mem_filter.mp hm).1
  · exact h.sessSorted.filter _
  · intro s hsm
    exact h.sessNext s (List.mem_filter.mp hsm).1
  · intro m hm
    rcases List.mem_filter.mp hm with ⟨hmm, hpred⟩
    rcases h.msgFK m hmm with ⟨s, hsm, he⟩
    refine ⟨s, List.mem_filter.mpr ⟨hsm, ?_⟩, he⟩
    rw [he]
    exact hpred
  · intro s hsm
    exact h.sessFK s (List.mem_filter.mp hsm).1

theorem wf_clearSessionMessages {db : DB} (h : WfDB db) (sid : Nat) :
    WfDB (clearSessionMessages db sid) := by
  constructor
  · exact h.msgSorted.filter _
  · intro m hm
    exact h.msgClock m (List.mem_filter.mp hm).1
  · intro m hm
    exact h.msgNext m (List.mem_filter.mp hm).1
  · exact h.sessSorted
  · exact h.sessNext
  · intro m hm
    exact h.msgFK m (List.mem_filter.mp hm).1
  · exact h.sessFK

theorem wf_dbUserPersisted {db : DB} (h : WfDB db) {sid : Nat} (msg : String)
    (hs : db.sessions.any (fun s => s.id == sid) = true) :
    WfDB (dbUserPersisted db sid msg) :=
  wf_insertMessage h "user" msg (exists_session_of_any hs)

theorem wf_dbAssistantPersisted {db : DB} (h : WfDB db) {sid : Nat} (msg text : String)
    (hs : db.sessions.any (fun s => s.id == sid) = true) :
    WfDB (dbAssistantPersisted db sid msg text) := by
  have h1 : WfDB (dbUserPersisted db sid msg) := wf_dbUserPersisted h msg hs
  have hex : ∃ s ∈ (dbUserPersisted db sid msg).sessions, s.id = sid :=
    exists_session_of_any hs
  have h2 := wf_insertMessage h1 "assistant" text hex
  have hdb : ({ dbUserPersisted db sid msg with
      messages := (dbUserPersisted db sid msg).messages
        ++ [⟨(dbUserPersisted db sid msg).nextMessageId, sid, "assistant", text,
             (dbUserPersisted db sid msg).clock⟩],
      nextMessageId := (dbUserPersisted db sid msg).nextMessageId + 1 } : DB)
      = dbAssistantPersisted db sid msg text := by
    simp [dbUserPersisted, dbAssistantPersisted, userRow, assistantRow]
  rw [← hdb]
  exact h2

theorem wf_chatTurn (env : Env) {db : DB} (h : WfDB db) (sid : Nat) (msg : String) :
    WfDB (chatTurn env db sid msg).2 := by
  by_cases hmsg : (jsTrim msg == "") = true
  · rw [chatTurn_eq_validation hmsg]
    exact h
  · have hmsg' : (jsTrim msg == "") = false := Bool.eq_false_iff.mpr hmsg
    by_cases hs : db.sessions.any (fun s => s.id == sid) = true
    · rcases hp : env.provider (turnPrompt db sid msg) with e | text
      · rw [chatTurn_eq_provider_error h hmsg' hs hp]
        exact wf_dbUserPersisted h msg hs
      · rw [chatTurn_eq_provider_ok h hmsg' hs hp]
        have h2 : WfDB (dbAssistantPersisted db sid msg text) :=
          wf_dbAssistantPersisted h msg text hs
        split_ifs
        · exact h2
        · exact wf_updateSessionTitle h2 sid _
        · exact h2
    · rw [chatTurn_eq_fk hmsg' hs]
      exact h

theorem wf_applyOp {db : DB} (h : WfDB db) (op : Op) : WfDB (applyOp db op) := by
  cases op with
  | tick n =>
      constructor
      · exact h.msgSorted
      · intro m hm
        exact Nat.le_trans (h.msgClock m hm) (Nat.le_add_right _ _)
      · exact h.msgNext
      · exact h.sessSorted
      · exact h.sessNext
      · exact h.msgFK
      · exact h.sessFK
  | loginOp u => exact wf_login h u
  | createOp uid t => exact wf_createSessionEndpoint h uid t
  | chatOp p rf sid m => exact wf_chatTurn ⟨p, rf⟩ h sid m
  | renameOp sid t => exact wf_updateSessionTitle h sid t
  | deleteOp sid => exact wf_deleteSession h sid
  | clearOp sid => exact wf_clearSessionMessages h sid
  | saveOp sid r c => exact wf_saveMessageState h sid r c

theorem wf_applyOps {db : DB} (h : WfDB db) : ∀ (ops : List Op), WfDB (applyOps db ops)
  | [] => h
  | op :: rest => wf_applyOps (wf_applyOp h op) rest

theorem wf_initDatabase : WfDB initDatabase := by
  constructor <;> simp [initDatabase]

/-! ## The claims -/

/-- C1: on a chat turn that completes successfully, the session's title is
renamed to the first 50 characters of the raw user message if and only if
the session held zero messages before the turn's user message was
appended (the reloaded history has length ≤ 1); with one or more prior
messages the title is left unchanged. -/
theorem chatTurn_retitle_iff_first_turn (env : Env) (db : DB) (sid : Nat) (msg : String)
    (hwf : WfDB db)
    (hok : (chatTurn env db sid msg).1.response.isOk = true) :
    (findSession (chatTurn env db sid msg).2 sid).map Session.title =
      (if sessionMessageCount db sid = 0
       then some (jsSubstring msg 50)
       else (findSession db sid).map Session.title) := by
  by_cases hmsg : (jsTrim msg == "") = true
  · rw [chatTurn_eq_validation hmsg] at hok
    simp [Except.isOk, Except.toBool] at hok
  · have hmsg' : (jsTrim msg == "") = false := Bool.eq_false_iff.mpr hmsg
    by_cases hs : db.sessions.any (fun s => s.id == sid) = true
    · rcases hp : env.provider (turnPrompt db sid msg) with e | text
      · rw [chatTurn_eq_provider_error hwf hmsg' hs hp] at hok
        simp [Except.isOk, Except.toBool] at hok
      · rw [chatTurn_eq_provider_ok hwf hmsg' hs hp] at hok ⊢
        have hfs : findSession (dbAssistantPersisted db sid msg text) sid
            = findSession db sid := rfl
        by_cases hfirst : getSessionMessages db sid = []
        · rw [if_pos hfirst] at hok ⊢
          rw [if_pos ((sessionMessageCount_eq_zero_iff hwf sid).mpr hfirst)]
          by_cases hrf : env.renameFails = true
          · rw [if_pos hrf] at hok
            simp [Except.isOk, Except.toBool] at hok
          · have hrf' : env.renameFails = false := Bool.eq_false_iff.mpr hrf
            rw [if_neg (by rw [hrf']; exact Bool.false_ne_true)]
            show (findSession (updateSessionTitle (dbAssistantPersisted db sid msg text)
                sid (jsSubstring msg 50)) sid).map Session.title = _
            rw [findSession_updateSessionTitle, hfs]
            rcases Option.isSome_iff_exists.mp (findSession_isSome_of_any hs) with ⟨s, hsome⟩
            rw [hsome]
            rfl
        · rw [if_neg hfirst] at hok ⊢
          rw [if_neg (fun hc => hfirst ((sessionMessageCount_eq_zero_iff hwf sid).mp hc))]
          show (findSession (dbAssistantPersisted db sid msg text) sid).map Session.title = _
          rw [hfs]
    · rw [chatTurn_eq_fk hmsg' hs] at hok
      simp [Except.isOk, Except.toBool] at hok

/-- Witness for C1: the first turn on a fresh session retitles it to the
message. -/
theorem chatTurn_retitle_iff_first_turn_witness :
    (findSession (chatTurn envOk dbAlice 1 "Hello").2 1).map Session.title =
      (if sessionMessageCount dbAlice 1 = 0
       then some (jsSubstring "Hello" 50)
       else (findSession dbAlice 1).map Session.title) :=
  chatTurn_retitle_iff_first_turn envOk dbAlice 1 "Hello"
    (by constructor <;> decide) (by decide)

/-- Counterexample to C2: a first turn in which steps 1–6 all succeed
(user and assistant rows both end up persisted), but whose title rename
throws, returns the failure envelope — not the success result the claim
requires. -/
theorem chatTurn_rename_failure_cex :
    (chatTurn envRenameFail dbAlice 1 "Hello").2.messages
      = [⟨1, 1, "user", "Hello", 0⟩, ⟨2, 1, "assistant", "Hi there!", 0⟩] ∧
    (chatTurn envRenameFail dbAlice 1 "Hello").1.response.isOk = false := by
  decide

/-- C2 amended: when steps 1–6 of a first turn succeed and the title
rename then fails, the user and assistant rows stay persisted, but the
turn returns the failure envelope: the rename failure fails the overall
turn, because the rename is awaited inside the same try/catch that
produces the response. -/
theorem chatTurn_rename_failure_fails_turn (env : Env) (db : DB) (sid : Nat)
    (msg text : String)
    (hwf : WfDB db)
    (hmsg : (jsTrim msg == "") = false)
    (hs : db.sessions.any (fun s => s.id == sid) = true)
    (hp : env.provider (turnPrompt db sid msg) = .ok text)
    (hfirst : sessionMessageCount db sid = 0)
    (hrf : env.renameFails = true) :
    (chatTurn env db sid msg).1.response.isOk = false ∧
    (chatTurn env db sid msg).2.messages
      = db.messages ++ [userRow db sid msg, assistantRow db sid msg text] := by
  rw [chatTurn_eq_provider_ok hwf hmsg hs hp,
      if_pos ((sessionMessageCount_eq_zero_iff hwf sid).mp hfirst), if_pos hrf]
  exact ⟨rfl, rfl⟩

/-- Witness for the amended C2. -/
theorem chatTurn_rename_failure_fails_turn_witness :
    (chatTurn envRenameFail dbAlice 1 "Hello").1.response.isOk = false ∧
    (chatTurn envRenameFail dbAlice 1 "Hello").2.messages
      = dbAlice.messages ++ [userRow dbAlice 1 "Hello",
                             assistantRow dbAlice 1 "Hello" "Hi there!"] :=
  chatTurn_rename_failure_fails_turn envRenameFail dbAlice 1 "Hello" "Hi there!"
    (by constructor <;> decide) (by decide) (by decide) rfl (by decide) rfl

/-- C3: a turn whose message trims to empty returns the validation-error
envelope, makes no provider call, and leaves the whole state — messages,
sessions and titles — untouched. -/
theorem chatTurn_empty_message_rejected (env : Env) (db : DB) (sid : Nat) (msg : String)
    (h : jsTrim msg = "") :
    (chatTurn env db sid msg).1.response = .error "Message cannot be empty" ∧
    (chatTurn env db sid msg).1.providerCall = none ∧
    (chatTurn env db sid msg).2 = db := by
  have hb : (jsTrim msg == "") = true := by simp [h]
  rw [chatTurn_eq_validation hb]
  exact ⟨rfl, rfl, rfl⟩

/-- Witness for C3 on a whitespace-only message. -/
theorem chatTurn_empty_message_rejected_witness :
    (chatTurn envOk dbAlice 1 "   ").1.response = .error "Message cannot be empty" ∧
    (chatTurn envOk dbAlice 1 "   ").1.providerCall = none ∧
    (chatTurn envOk dbAlice 1 "   ").2 = dbAlice :=
  chatTurn_empty_message_rejected envOk dbAlice 1 "   " (by decide)

/-- C4: when the provider call fails after the user message was appended,
the turn returns the failure envelope, the user row stays durably stored
(also as seen through `getSessionMessages`), and no assistant row is
appended — the state holds exactly the old messages plus the user row. -/
theorem chatTurn_provider_failure_keeps_user_message (env : Env) (db : DB) (sid : Nat)
    (msg e : String)
    (hwf : WfDB db)
    (hmsg : (jsTrim msg == "") = false)
    (hs : db.sessions.any (fun s => s.id == sid) = true)
    (hp : env.provider (turnPrompt db sid msg) = .error e) :
    (chatTurn env db sid msg).1.response.isOk = false ∧
    (chatTurn env db sid msg).2.messages = db.messages ++ [userRow db sid msg] ∧
    getSessionMessages (chatTurn env db sid msg).2 sid
      = getSessionMessages db sid ++ [userRow db sid msg] := by
  rw [chatTurn_eq_provider_error hwf hmsg hs hp]
  exact ⟨rfl, rfl, getSessionMessages_dbUserPersisted hwf sid msg⟩

/-- Witness for C4 with a provider forced to fail. -/
theorem chatTurn_provider_failure_keeps_user_message_witness :
    (chatTurn envProviderDown dbAlice 1 "Hello").1.response.isOk = false ∧
    (chatTurn envProviderDown dbAlice 1 "Hello").2.messages
      = dbAlice.messages ++ [userRow dbAlice 1 "Hello"] ∧
    getSessionMessages (chatTurn envProviderDown dbAlice 1 "Hello").2 1
      = getSessionMessages dbAlice 1 ++ [userRow dbAlice 1 "Hello"] :=
  chatTurn_provider_failure_keeps_user_message envProviderDown dbAlice 1
    "Hello" "provider unavailable"
    (by constructor <;> decide) (by decide) (by decide) rfl

/-- C8: whenever a turn reaches the provider, the prompt it sends is
exactly the fixed system message first, then the session's pre-append
messages in chronological order with their roles preserved, then the new
user message last; the just-appended user row is excluded from the
middle section, so the new message appears exactly once. -/
theorem chatTurn_prompt_exact (env : Env) (db : DB) (sid : Nat) (msg : String)
    (hwf : WfDB db)
    (hmsg : (jsTrim msg == "") = false)
    (hs : db.sessions.any (fun s => s.id == sid) = true) :
    (chatTurn env db sid msg).1.providerCall =
      some (⟨"system", systemMessage⟩ ::
        ((getSessionMessages db sid).map (fun m => ⟨m.role, m.content⟩)
          ++ [⟨"user", msg⟩])) := by
  rcases hp : env.provider (turnPrompt db sid msg) with e | text
  · rw [chatTurn_eq_provider_error hwf hmsg hs hp]
    rfl
  · rw [chatTurn_eq_provider_ok hwf hmsg hs hp]
    split_ifs <;> rfl

/-- Witness for C8 on a session with a two-message history. -/
theorem chatTurn_prompt_exact_witness :
    (chatTurn envOk dbAliceTurn1 1 "How are you?").1.providerCall =
      some (⟨"system", systemMessage⟩ ::
        ((getSessionMessages dbAliceTurn1 1).map (fun m => ⟨m.role, m.content⟩)
          ++ [⟨"user", "How are you?"⟩])) :=
  chatTurn_prompt_exact envOk dbAliceTurn1 1 "How are you?"
    (by constructor <;> decide) (by decide) (by decide)

/-- C6: deleting a session removes, in the one atomic cascading `DELETE`,
the session row together with every message owned by it: afterwards no
message with that session id persists, `getSessionMessages` on the id
returns empty, and the session row is gone — never a partial
remainder. -/
theorem deleteSession_cascade (db : DB) (sid : Nat) :
    (∀ m ∈ (deleteSession db sid).messages, m.session_id ≠ sid) ∧
    getSessionMessages (deleteSession db sid) sid = [] ∧
    findSession (deleteSession db sid) sid = none := by
  refine ⟨?_, ?_, ?_⟩
  · intro m hm
    have hp := (List.mem_filter.mp hm).2
    rw [Bool.not_eq_eq_eq_not, Bool.not_true] at hp
    exact beq_eq_false_iff_ne.mp hp
  · show orderByTimeAsc ((db.messages.filter fun m => ! (m.session_id == sid)).filter
        (fun m => m.session_id == sid)) = []
    rw [List.filter_filter]
    have hz : (db.messages.filter fun a => (a.session_id == sid)
        && ! (a.session_id == sid)) = [] := by
      rw [List.filter_eq_nil_iff]
      intro a _
      simp
    rw [hz]
    rfl
  · show ((db.sessions.filter fun s => ! (s.id == sid)).find? fun s => s.id == sid) = none
    rw [List.find?_eq_none]
    intro s hsm
    have hp := (List.mem_filter.mp hsm).2
    rw [Bool.not_eq_eq_eq_not, Bool.not_true] at hp
    rw [hp]
    exact Bool.false_ne_true

/-- C7: login is idempotent — a second login with the same valid username
returns the very same result (in particular the same user id) and leaves
the store unchanged, so no duplicate user row is ever created. -/
theorem login_idempotent (db : DB) (username : String)
    (h : 2 ≤ jsLength (jsTrim username)) :
    login (login db username).2 username = login db username := by
  have hv : ¬ jsLength (jsTrim username) < 2 := by omega
  unfold login
  rw [if_neg hv]
  simp only [if_neg hv]
  unfold getOrCreateUser
  rcases hf : db.users.find? (fun u => u.username == jsToLower (jsTrim username))
      with _ | u
  · have hfind2 : ((db.users
          ++ [(⟨db.nextUserId, jsToLower (jsTrim username), db.clock⟩ : User)]).find?
        (fun u => u.username == jsToLower (jsTrim username)))
        = some (⟨db.nextUserId, jsToLower (jsTrim username), db.clock⟩ : User) := by
      rw [List.find?_append, hf]
      simp [List.find?_cons]
    simp only [hf, hfind2]
  · simp only [hf]

/-- Witness for C7. -/
theorem login_idempotent_witness :
    login (login initDatabase "  Alice ").2 "  Alice " = login initDatabase "  Alice " :=
  login_idempotent initDatabase "  Alice " (by decide)

/-- Counterexample to C9: appending a message to a nonexistent session id
does not no-op — the `INSERT` fails with a thrown foreign-key violation,
because `messages.session_id` references `sessions(id)`. -/
theorem saveMessage_nonexistent_session_cex :
    saveMessage initDatabase 1 "user" "hi" = .error "foreign key violation" := by
  decide

/-- C9 amended: on a nonexistent session or user id the rename, delete,
clear and list repository operations no-op or return empty rather than
throwing, but a message append does not: it fails with a foreign-key
violation. -/
theorem repo_nonexistent_id_tolerance (db : DB) (sid uid : Nat) (t r c : String)
    (hwf : WfDB db)
    (hs : ∀ s ∈ db.sessions, s.id ≠ sid)
    (hu : ∀ u ∈ db.users, u.id ≠ uid) :
    updateSessionTitle db sid t = db ∧
    deleteSession db sid = db ∧
    clearSessionMessages db sid = db ∧
    getSessionMessages db sid = [] ∧
    getUserSessions db uid = [] ∧
    saveMessage db sid r c = .error "foreign key violation" := by
  have hmne : ∀ m ∈ db.messages, m.session_id ≠ sid := by
    intro m hm
    rcases hwf.msgFK m hm with ⟨s, hsm, he⟩
    rw [← he]
    exact hs s hsm
  have hmfil : (db.messages.filter fun m => ! (m.session_id == sid)) = db.messages := by
    rw [List.filter_eq_self]
    intro m hm
    rw [Bool.not_eq_eq_eq_not, Bool.not_true]
    exact beq_eq_false_iff_ne.mpr (hmne m hm)
  have hsfil : (db.sessions.filter fun s => ! (s.id == sid)) = db.sessions := by
    rw [List.filter_eq_self]
    intro s hsm
    rw [Bool.not_eq_eq_eq_not, Bool.not_true]
    exact beq_eq_false_iff_ne.mpr (hs s hsm)
  refine ⟨?_, ?_, ?_, ?_, ?_, ?_⟩
  · have hmap : db.sessions.map (fun s => if s.id == sid then { s with title := t } else s)
        = db.sessions := by
      have h1 : ∀ s ∈ db.sessions,
          (if s.id == sid then { s with title := t } else s) = id s := by
        intro s hsm
        have hb : (s.id == sid) = false := beq_eq_false_iff_ne.mpr (hs s hsm)
        simp [hb]
      rw [List.map_congr_left h1, List.map_id]
    unfold updateSessionTitle
    rw [hmap]
  · unfold deleteSession
    rw [hmfil, hsfil]
  · unfold clearSessionMessages
    rw [hmfil]
  · have hz : (db.messages.filter fun m => m.session_id == sid) = [] := by
      rw [List.filter_eq_nil_iff]
      intro m hm
      rw [beq_eq_false_iff_ne.mpr (hmne m hm)]
      exact Bool.false_ne_true
    unfold getSessionMessages
    rw [hz]
    rfl
  · have huune : ∀ s ∈ db.sessions, s.user_id ≠ uid := by
      intro s hsm
      rcases hwf.sessFK s hsm with ⟨u, hum, he⟩
      rw [← he]
      exact hu u hum
    have hz : (db.sessions.filter fun s => s.user_id == uid) = [] := by
      rw [List.filter_eq_nil_iff]
      intro s hsm
      rw [beq_eq_false_iff_ne.mpr (huune s hsm)]
      exact Bool.false_ne_true
    unfold getUserSessions
    rw [hz]
    rfl
  · apply saveMessage_of_not_exists
    intro hany
    rcases exists_session_of_any hany with ⟨s, hsm, he⟩
    exact hs s hsm he

/-- Witness for the amended C9 at a fresh id. -/
theorem repo_nonexistent_id_tolerance_witness :
    updateSessionTitle dbAliceTurn1 99 "x" = dbAliceTurn1 ∧
    deleteSession dbAliceTurn1 99 = dbAliceTurn1 ∧
    clearSessionMessages dbAliceTurn1 99 = dbAliceTurn1 ∧
    getSessionMessages dbAliceTurn1 99 = [] ∧
    getUserSessions dbAliceTurn1 99 = [] ∧
    saveMessage dbAliceTurn1 99 "user" "hi" = .error "foreign key violation" :=
  repo_nonexistent_id_tolerance dbAliceTurn1 99 99 "x" "user" "hi"
    (by constructor <;> decide) (by decide) (by decide)

/-- Counterexample to C10: the `sessions.title` column is `VARCHAR(100)`,
so a non-empty 101-character title is not used as given — the `INSERT`
raises value-too-long and the endpoint returns the failure envelope
instead of a session carrying that title. -/
theorem createSession_long_title_cex :
    longTitle ≠ "" ∧
    (createSessionEndpoint dbAlice 1 (some longTitle)).1
      = .error "Failed to create session" := by
  refine ⟨?_, ?_⟩
  · decide
  · decide

/-- C10 amended: creating a session for an existing user with an absent
title or an empty-string title yields the title `"New Chat"`; a
non-empty provided title of at most 100 characters (the
`sessions.title VARCHAR(100)` bound) is used as given; a longer title is
never stored as given — the insert raises value-too-long and the
endpoint returns the failure envelope, except that a title whose
characters past position 100 are all spaces is stored truncated to 100
characters. -/
theorem createSession_default_title (db : DB) (uid : Nat)
    (hu : db.users.any (fun u => u.id == uid) = true) :
    (createSessionEndpoint db uid none).1
        = .ok ⟨db.nextSessionId, uid, "New Chat", db.clock⟩ ∧
    (createSessionEndpoint db uid (some "")).1
        = .ok ⟨db.nextSessionId, uid, "New Chat", db.clock⟩ ∧
    (∀ t : String, t ≠ "" → jsLength t ≤ 100 →
      (createSessionEndpoint db uid (some t)).1
        = .ok ⟨db.nextSessionId, uid, t, db.clock⟩) ∧
    (∀ t : String, 100 < jsLength t →
      (createSessionEndpoint db uid (some t)).1
        = (if (t.data.drop 100).all (fun c => c == ' ')
           then .ok ⟨db.nextSessionId, uid, ⟨t.data.take 100⟩, db.clock⟩
           else .error "Failed to create session")) := by
  refine ⟨?_, ?_, ?_, ?_⟩
  · simp [createSessionEndpoint, createSession, varcharValue, hu, jsLength]
  · simp [createSessionEndpoint, createSession, varcharValue, hu, jsLength]
  · intro t ht hlen
    have hb : (t == "") = false := beq_eq_false_iff_ne.mpr ht
    simp [createSessionEndpoint, createSession, varcharValue, hu, hb, hlen]
  · intro t hlen
    have ht : t ≠ "" := by
      intro he
      rw [he] at hlen
      exact absurd hlen (by decide)
    have hb : (t == "") = false := beq_eq_false_iff_ne.mpr ht
    have hnle : ¬ jsLength t ≤ 100 := Nat.not_le_of_lt hlen
    by_cases hsp : ((t.data.drop 100).all (fun c => c == ' ')) = true
    · simp [createSessionEndpoint, createSession, varcharValue, hu, hb, hnle, hsp]
    · simp [createSessionEndpoint, createSession, varcharValue, hb, hnle, hsp]

/-- The deterministic refinement `getSessionMessages` satisfies the
query contract: its result is an admissible `ORDER BY created_at ASC`
result. -/
theorem getSessionMessages_satisfies_spec {db : DB} (hwf : WfDB db) (sid : Nat) :
    selectMessagesSpec db sid (getSessionMessages db sid) := by
  constructor
  · rw [getSessionMessages_eq_filter hwf]
  · rw [getSessionMessages_eq_filter hwf]
    exact (msgTimesSorted hwf).filter _

/-- Counterexample to C5: `ORDER BY created_at ASC` has no secondary
sort key, and Postgres leaves the order of rows with equal `created_at`
unspecified.  After two appends to one session within a single timestamp
granule, the id-reversed pair is an admissible query result — a
permutation of the session's rows, non-decreasing in `created_at` — yet
it is not in insertion (id) order on the tie, so the claimed tie-break
is not guaranteed by the program. -/
theorem listBySession_tie_order_cex :
    selectMessagesSpec (applyOps initDatabase traceTiedAppends) 1
      [⟨2, 1, "user", "b", 0⟩, ⟨1, 1, "user", "a", 0⟩] ∧
    ¬ ([(⟨2, 1, "user", "b", 0⟩ : Message), ⟨1, 1, "user", "a", 0⟩].Pairwise
        (fun a b => a.created_at < b.created_at
          ∨ (a.created_at = b.created_at ∧ a.id < b.id))) := by
  refine ⟨⟨?_, ?_⟩, ?_⟩
  · decide
  · decide
  · decide

/-- C5 amended: in every state reachable from the fresh store by any
interleaving of requests and clock advances, every admissible result of
`listBySession` is in non-decreasing creation-time order; the relative
order of messages with equal creation times is unspecified (no secondary
sort key).  Whenever the session's creation times are pairwise distinct,
the result is exactly the insertion-ordered rows, hence with strictly
increasing creation times and increasing assigned ids. -/
theorem listBySession_chronological (ops : List Op) (sid : Nat) (l : List Message)
    (hl : selectMessagesSpec (applyOps initDatabase ops) sid l) :
    l.Pairwise (fun a b => a.created_at ≤ b.created_at) ∧
    ((l.map Message.created_at).Nodup →
      l = (applyOps initDatabase ops).messages.filter (fun m => m.session_id == sid) ∧
      l.Pairwise (fun a b => a.created_at < b.created_at ∧ a.id < b.id)) := by
  have hwf : WfDB (applyOps initDatabase ops) := wf_applyOps wf_initDatabase ops
  rcases hl with ⟨hperm, hsorted⟩
  refine ⟨hsorted, ?_⟩
  intro hnd
  have hf : ((applyOps initDatabase ops).messages.filter
      (fun m => m.session_id == sid)).Pairwise
      (fun a b => a.id < b.id ∧ a.created_at ≤ b.created_at) :=
    hwf.msgSorted.filter _
  have hlne : l.Pairwise (fun a b => a.created_at ≠ b.created_at) :=
    List.pairwise_map.mp hnd
  have hllt : l.Pairwise (fun a b => a.created_at < b.created_at) :=
    (hsorted.and hlne).imp (fun hab => Nat.lt_of_le_of_ne hab.1 hab.2)
  have hfnd : (((applyOps initDatabase ops).messages.filter
      (fun m => m.session_id == sid)).map Message.created_at).Nodup :=
    (hperm.map Message.created_at).nodup_iff.mp hnd
  have hfne : ((applyOps initDatabase ops).messages.filter
      (fun m => m.session_id == sid)).Pairwise
      (fun a b => a.created_at ≠ b.created_at) :=
    List.pairwise_map.mp hfnd
  have hflt : ((applyOps initDatabase ops).messages.filter
      (fun m => m.session_id == sid)).Pairwise
      (fun a b => a.created_at < b.created_at) :=
    ((hf.imp (fun hab => hab.2)).and hfne).imp
      (fun hab => Nat.lt_of_le_of_ne hab.1 hab.2)
  haveI : IsAntisymm Message (fun a b => a.created_at < b.created_at) :=
    ⟨fun a b h1 h2 => absurd h2 (Nat.lt_asymm h1)⟩
  have heq : l = (applyOps initDatabase ops).messages.filter
      (fun m => m.session_id == sid) :=
    List.eq_of_perm_of_sorted hperm hllt hflt
  refine ⟨heq, ?_⟩
  rw [heq]
  exact hflt.and (hf.imp (fun hab => hab.1))

/-- Witness for the amended C5, on a trace whose two appends carry
distinct timestamps. -/
theorem listBySession_chronological_witness :
    [(⟨1, 1, "user", "a", 0⟩ : Message), ⟨2, 1, "user", "b", 1⟩].Pairwise
        (fun a b => a.created_at ≤ b.created_at) ∧
    (([(⟨1, 1, "user", "a", 0⟩ : Message), ⟨2, 1, "user", "b", 1⟩].map
        Message.created_at).Nodup →
      [(⟨1, 1, "user", "a", 0⟩ : Message), ⟨2, 1, "user", "b", 1⟩]
        = (applyOps initDatabase traceTwoMessages).messages.filter
            (fun m => m.session_id == 1) ∧
      [(⟨1, 1, "user", "a", 0⟩ : Message), ⟨2, 1, "user", "b", 1⟩].Pairwise
        (fun a b => a.created_at < b.created_at ∧ a.id < b.id)) :=
  listBySession_chronological traceTwoMessages 1
    [⟨1, 1, "user", "a", 0⟩, ⟨2, 1, "user", "b", 1⟩] ⟨by decide, by decide⟩

/-- Witness for the amended C10. -/
theorem createSession_default_title_witness :
    ((createSessionEndpoint dbAlice 1 none).1
        = .ok ⟨dbAlice.nextSessionId, 1, "New Chat", dbAlice.clock⟩ ∧
     (createSessionEndpoint dbAlice 1 (some "")).1
        = .ok ⟨dbAlice.nextSessionId, 1, "New Chat", dbAlice.clock⟩ ∧
     (∀ t : String, t ≠ "" → jsLength t ≤ 100 →
       (createSessionEndpoint dbAlice 1 (some t)).1
        = .ok ⟨dbAlice.nextSessionId, 1, t, dbAlice.clock⟩) ∧
     (∀ t : String, 100 < jsLength t →
       (createSessionEndpoint dbAlice 1 (some t)).1
        = (if (t.data.drop 100).all (fun c => c == ' ')
           then .ok ⟨dbAlice.nextSessionId, 1, ⟨t.data.take 100⟩, dbAlice.clock⟩
           else .error "Failed to create session"))) :=
  createSession_default_title dbAlice 1 (by decide)

end ChatBot
